import Mathlib

/-!
Verification development for the parkbench negotiation and session subsystem.

The definitions below are a shallow embedding of the Python handlers in
`src/parkbench/backend/api/sessions.py` and
`src/parkbench/backend/api/negotiation.py`, together with the data model of
`src/parkbench/backend/db/models.py`.

Modelling conventions:
- The database table of `A2ASession` rows is a `List (A2ASession C)`;
  the JSONB `context` column is an abstract type parameter `C`.
- Timestamps are `Nat` (`datetime.utcnow()` / `func.now()` become an explicit
  `now` argument; SQLAlchemy fills `created_at`/`updated_at` on insert).
- Session ids are kept in a normalized form: the 32 lowercase hexadecimal
  digits of the UUID.  `parseUUID` models the string parsing done by
  `uuid.UUID(session_id)` for the canonical forms (optional surrounding
  braces, optional hyphens); Python additionally accepts `urn:` forms,
  which no property here depends on.
- HTTP failures (`HTTPException`) become the `ApiError` type: status 400 is
  `badRequest`, 404 is `notFound`, 500 is `internalError`.
- Handlers are pure functions from their inputs and the current table to
  `Except ApiError (response × new table)`.
-/

/-- The `SessionStatus` enum of `db/models.py`. -/
inductive SessionStatus where
  | active
  | completed
  | failed
  | terminated
deriving DecidableEq, Repr

/-- `SessionStatus.value`: the string value of each enum member. -/
def SessionStatus.value : SessionStatus → String
  | .active => "active"
  | .completed => "completed"
  | .failed => "failed"
  | .terminated => "terminated"

/-- Models the Python enum call `SessionStatus(s)`: the member whose value is
`s`, or `none` (a `ValueError`) when no member has that value. -/
def SessionStatus.ofString? : String → Option SessionStatus
  | "active" => some .active
  | "completed" => some .completed
  | "failed" => some .failed
  | "terminated" => some .terminated
  | _ => none

/-- Hexadecimal digit test (used by the UUID parsing model). -/
def isHexDigit (c : Char) : Bool :=
  c.isDigit || ('a' ≤ c && c ≤ 'f') || ('A' ≤ c && c ≤ 'F')

/-- Python `s.strip(chars)` for `chars = "{}"`: drop any leading and trailing
brace characters. -/
def stripBraces (l : List Char) : List Char :=
  ((l.dropWhile (fun c => c == '{' || c == '}')).reverse.dropWhile
    (fun c => c == '{' || c == '}')).reverse

/-- Model of `uuid.UUID(s)` on the canonical input forms: strip surrounding
braces, remove hyphens, and require exactly 32 hexadecimal digits.  Returns
the normalized id (the 32 digits, lowercased), which is how session ids are
represented throughout this model. -/
def parseUUID (s : String) : Option String :=
  let cs := (stripBraces s.data).filter (fun c => !(c == '-'))
  if cs.length == 32 && cs.all isHexDigit then
    some (String.mk (cs.map Char.toLower))
  else
    none

/-- One row of the `a2a_sessions` table (`db/models.py`, class `A2ASession`),
with the JSONB `context` column abstracted to a type parameter `C`. -/
structure A2ASession (C : Type) where
  session_id : String
  initiating_agent : String
  target_agent : String
  task : String
  session_token : String
  status : SessionStatus
  context : C
  created_at : Nat
  updated_at : Nat
deriving DecidableEq

/-- Response model `SessionStatusResponse` of `sessions.py`.  Note the field
list: it has no `session_token` field. -/
structure SessionStatusResponse (C : Type) where
  session_id : String
  initiating_agent : String
  target_agent : String
  task : String
  status : String
  context : C
  created_at : Nat
  updated_at : Nat
deriving DecidableEq

/-- Request model `SessionUpdateRequest` of `sessions.py`. -/
structure SessionUpdateRequest (C : Type) where
  status : String
  context : Option C
deriving DecidableEq

/-- Response model `SessionUpdateResponse` of `sessions.py`. -/
structure SessionUpdateResponse where
  session_id : String
  status : String
  updated_at : Nat
deriving DecidableEq

/-- The response dict of `terminate_session`. -/
structure TerminateResponse where
  message : String
  status : String
deriving DecidableEq

/-- The typed failures raised via `HTTPException`: 400, 404, 500. -/
inductive ApiError where
  | badRequest (detail : String)
  | notFound (detail : String)
  | internalError (detail : String)
deriving DecidableEq

/-- Replace the first element satisfying `p` by its image under `f`; models an
in-place mutation of the single ORM row returned by `.first()`. -/
def updateFirst {α : Type} (p : α → Bool) (f : α → α) : List α → List α
  | [] => []
  | x :: xs => if p x then f x :: xs else x :: updateFirst p f xs

/-- `db.query(A2ASession).filter(A2ASession.session_id == u).first()`. -/
def findSession {C : Type} (db : List (A2ASession C)) (u : String) :
    Option (A2ASession C) :=
  db.find? (fun s => s.session_id == u)

/-- Handler `get_session_status` of `sessions.py` (lines 34-68).  The
`session.context or {}` guard only replaces a null/empty mapping by the empty
mapping; with `context` abstract it is the stored context itself. -/
def get_session_status {C : Type} (session_id : String)
    (db : List (A2ASession C)) : Except ApiError (SessionStatusResponse C) :=
  match parseUUID session_id with
  | none => .error (.badRequest "Invalid session ID format")
  | some u =>
    match findSession db u with
    | none => .error (.notFound ("Session " ++ session_id ++ " not found"))
    | some s =>
      .ok { session_id := s.session_id
            initiating_agent := s.initiating_agent
            target_agent := s.target_agent
            task := s.task
            status := s.status.value
            context := s.context
            created_at := s.created_at
            updated_at := s.updated_at }

/-- The `valid_statuses` list of `update_session`. -/
def valid_statuses : List String := ["active", "completed", "failed"]

/-- Handler `update_session` of `sessions.py` (lines 70-125): parse the id
(400 on failure), fetch the session (404 if absent), check the requested
status value (400 if not in `valid_statuses`), then set the status, replace
the context only when one was provided, and stamp `updated_at`.  The
`internalError` branch models the `except` clause around the write; the enum
conversion cannot actually fail after the membership check. -/
def update_session {C : Type} (now : Nat) (session_id : String)
    (request : SessionUpdateRequest C) (db : List (A2ASession C)) :
    Except ApiError (SessionUpdateResponse × List (A2ASession C)) :=
  match parseUUID session_id with
  | none => .error (.badRequest "Invalid session ID format")
  | some u =>
    match findSession db u with
    | none => .error (.notFound ("Session " ++ session_id ++ " not found"))
    | some s =>
      if valid_statuses.contains request.status then
        match SessionStatus.ofString? request.status with
        | none => .error (.internalError "Failed to update session")
        | some st =>
          let s2 : A2ASession C :=
            { s with
              status := st
              context := match request.context with
                | some c => c
                | none => s.context
              updated_at := now }
          .ok ({ session_id := s2.session_id
                 status := s2.status.value
                 updated_at := s2.updated_at },
               updateFirst (fun t => t.session_id == u) (fun _ => s2) db)
      else
        .error (.badRequest "Invalid status. Must be one of: active, completed, failed")

/-- Python truthiness of an `Optional[str]`: `None` and `""` are falsy.  This
is the test performed by `if initiating_agent:` etc. in `list_sessions`. -/
def isTruthy : Option String → Bool
  | none => false
  | some s => !(s == "")

/-- One entry of the `results` list built by `list_sessions` (lines 203-213).
Note the field list: it has neither `session_token` nor `context`. -/
structure SessionListItem where
  session_id : String
  initiating_agent : String
  target_agent : String
  task : String
  status : String
  created_at : Nat
  updated_at : Nat
deriving DecidableEq

/-- The response dict of `list_sessions` (lines 215-220). -/
structure SessionListResponse where
  sessions : List SessionListItem
  total : Nat
  offset : Nat
  limit : Nat
deriving DecidableEq

/-- The row-to-dict conversion in the `list_sessions` result loop. -/
def toListItem {C : Type} (s : A2ASession C) : SessionListItem :=
  { session_id := s.session_id
    initiating_agent := s.initiating_agent
    target_agent := s.target_agent
    task := s.task
    status := s.status.value
    created_at := s.created_at
    updated_at := s.updated_at }

/-- The two optional agent-name equality filters of `list_sessions`
(lines 185-189), each applied only when its value is truthy. -/
def applyAgentFilters {C : Type} (initiating_agent target_agent : Option String)
    (db : List (A2ASession C)) : List (A2ASession C) :=
  let q1 := if isTruthy initiating_agent then
      db.filter (fun s => s.initiating_agent == initiating_agent.getD "")
    else db
  if isTruthy target_agent then
    q1.filter (fun s => s.target_agent == target_agent.getD "")
  else q1

/-- Ordering used by `order_by(A2ASession.created_at.desc())`:
non-increasing `created_at`. -/
def createdDesc {C : Type} (a b : A2ASession C) : Prop :=
  b.created_at ≤ a.created_at

instance {C : Type} : DecidableRel (createdDesc (C := C)) :=
  fun a b => inferInstanceAs (Decidable (b.created_at ≤ a.created_at))

instance {C : Type} : IsTotal (A2ASession C) createdDesc :=
  ⟨fun a b => le_total b.created_at a.created_at⟩

instance {C : Type} : IsTrans (A2ASession C) createdDesc :=
  ⟨fun _ _ _ hab hbc => le_trans hbc hab⟩

/-- `order_by(created_at.desc()).offset(offset).limit(limit)` followed by the
result-dict loop of `list_sessions` (lines 199-220).  The database sort is
modelled by the stable `insertionSort` (the ordering of ties is not observed
by any property proved here). -/
def pageOf {C : Type} (limit offset : Nat) (q : List (A2ASession C)) :
    SessionListResponse :=
  let sessions := ((q.insertionSort createdDesc).drop offset).take limit
  let results := sessions.map toListItem
  { sessions := results
    total := results.length
    offset := offset
    limit := limit }

/-- Handler `list_sessions` of `sessions.py` (lines 171-220): apply the truthy
filters conjunctively, validate a truthy status filter (400 when not one of
`active`, `completed`, `failed`), sort by `created_at` descending, paginate,
and return the page together with `total = len(results)`.  `limit` and
`offset` are modelled as the non-negative integers the endpoint is called
with.  The `internalError` branch models an uncaught `ValueError` from the
enum conversion; it is unreachable after the membership check. -/
def list_sessions {C : Type} (initiating_agent target_agent status_filter :
    Option String) (limit offset : Nat) (db : List (A2ASession C)) :
    Except ApiError SessionListResponse :=
  let query := applyAgentFilters initiating_agent target_agent db
  if isTruthy status_filter then
    if (["active", "completed", "failed"] : List String).contains
        (status_filter.getD "") then
      match SessionStatus.ofString? (status_filter.getD "") with
      | none => .error (.internalError "status filter conversion failed")
      | some st => .ok (pageOf limit offset (query.filter (fun s => s.status == st)))
    else
      .error (.badRequest "Invalid status filter. Must be one of: active, completed, failed")
  else
    .ok (pageOf limit offset query)

/-- Handler `terminate_session` of `sessions.py` (lines 127-169): parse the id
(400 on failure), fetch the session (404 if absent), then unconditionally set
the status to `FAILED` and stamp `updated_at`. -/
def terminate_session {C : Type} (now : Nat) (session_id : String)
    (db : List (A2ASession C)) :
    Except ApiError (TerminateResponse × List (A2ASession C)) :=
  match parseUUID session_id with
  | none => .error (.badRequest "Invalid session ID format")
  | some u =>
    match findSession db u with
    | none => .error (.notFound ("Session " ++ session_id ++ " not found"))
    | some _ =>
      .ok ({ message := "Session " ++ session_id ++ " terminated"
             status := "failed" },
           updateFirst (fun t => t.session_id == u)
             (fun s => { s with status := .failed, updated_at := now }) db)

/-!
Negotiation model (`src/parkbench/backend/api/negotiation.py`).

Agent capability data: the handlers read the `a2a` entry of the agent
metadata (default: empty mapping) and then the keys `supported_tasks`
(default empty list), `negotiation` (default false) and `token_budget`
(default 0).  `A2AData` below is that sub-record
with the defaults already applied.  `token_budget` is a `Nat`: the
registration validator (`validation.py`, `validate_a2a_capabilities`) rejects
negative token budgets, and the spec data model declares it non-negative.
-/

/-- The `a2a` capability sub-record of the agent metadata, with the
defaults of the `.get` calls in the source applied. -/
structure A2AData where
  supported_tasks : List String
  negotiation : Bool
  token_budget : Nat
deriving DecidableEq

/-- One row of the `agents` table, restricted to the columns the negotiation
handlers read. -/
structure Agent where
  agent_name : String
  active : Bool
  a2a : A2AData
deriving DecidableEq

/-- The `preferredCapabilities` mapping of a negotiation request, restricted
to the keys the scorer reads: `negotiation` holds the truthiness of
the `negotiation` entry of `preferred_capabilities` (absent means falsy),
and `token_budget` is the `token_budget` entry before the default 0 is
applied (`none` means the key is absent). -/
structure PreferredCapabilities where
  negotiation : Bool
  token_budget : Option Int
deriving DecidableEq

/-- Request model `TaskNegotiationRequest`, restricted to the fields the
handler reads (the free-form `context` mapping is never read). -/
structure TaskNegotiationRequest where
  initiating_agent_name : String
  requested_task : String
  preferred_capabilities : PreferredCapabilities
deriving DecidableEq

/-- Response model `CandidateAgent`.  Match scores are modelled as exact
rationals; every score the code produces is a multiple of `1/10`. -/
structure CandidateAgent where
  agent_name : String
  match_score : ℚ
  supported_tasks : List String
  negotiation : Bool
  token_budget : Nat
deriving DecidableEq

/-- The task filter of both handlers:
`any(request_task.lower() in task.lower() for task in supported_tasks)` —
a case-insensitive substring test against each supported task.  Python
`str.lower()` is modelled as a character-wise `Char.toLower` (the two agree
on the ASCII names this service validates), and the `in` operator is
substring containment. -/
def taskMatches (requested : String) (tasks : List String) : Bool :=
  tasks.any (fun t => decide
    ((requested.data.map Char.toLower) <:+: (t.data.map Char.toLower)))

/-- The score computation of `negotiate_task` (lines 78-92): base `0.8` for a
task match, `+0.1` when negotiation is preferred and the agent is
negotiation-capable, `+0.1` when the token budget of the agent is at least the
preferred one (both budgets defaulting to `0` when absent), capped at `1.0`. -/
def matchScore (prefs : PreferredCapabilities) (a2a : A2AData) : ℚ :=
  let base : ℚ := 0.8
  let s1 := if prefs.negotiation && a2a.negotiation then base + 0.1 else base
  let s2 := if (a2a.token_budget : Int) ≥ prefs.token_budget.getD 0 then
      s1 + 0.1
    else s1
  min s2 1.0

/-- The candidate search of `negotiate_task` (lines 63-77): the directory
query keeps active agents other than the initiating one, and the loop keeps
those with a supported task matching the requested task. -/
def findCandidates (task excludeAgent : String) (db : List Agent) :
    List Agent :=
  (db.filter (fun a => a.active && !(a.agent_name == excludeAgent))).filter
    (fun a => taskMatches task a.a2a.supported_tasks)

/-- The `CandidateAgent` built for one filtered directory record
(lines 94-100). -/
def mkCandidate (prefs : PreferredCapabilities) (a : Agent) : CandidateAgent :=
  { agent_name := a.agent_name
    match_score := matchScore prefs a.a2a
    supported_tasks := a.a2a.supported_tasks
    negotiation := a.a2a.negotiation
    token_budget := a.a2a.token_budget }

/-- The `candidates` list of `negotiate_task` in directory iteration order,
before sorting. -/
def candidateList (request : TaskNegotiationRequest) (db : List Agent) :
    List CandidateAgent :=
  (findCandidates request.requested_task request.initiating_agent_name db).map
    (mkCandidate request.preferred_capabilities)

/-- Ordering used by `candidates.sort(key=lambda x: x.match_score,
reverse=True)`: non-increasing match score. -/
def scoreGe (x y : CandidateAgent) : Prop :=
  y.match_score ≤ x.match_score

instance : DecidableRel scoreGe :=
  fun x y => inferInstanceAs (Decidable (y.match_score ≤ x.match_score))

instance : IsTotal CandidateAgent scoreGe :=
  ⟨fun a b => le_total b.match_score a.match_score⟩

instance : IsTrans CandidateAgent scoreGe :=
  ⟨fun _ _ _ hab hbc => le_trans hbc hab⟩

/-- Handler `negotiate_task` of `negotiation.py` (lines 44-105): 404 when the
initiating agent is absent or inactive, otherwise build the candidate list,
sort it by descending match score (the stable Python list sort, which is
exactly `insertionSort` for this relation), and return the first 10. -/
def negotiate_task (request : TaskNegotiationRequest) (db : List Agent) :
    Except ApiError (List CandidateAgent) :=
  match db.find? (fun a => a.agent_name == request.initiating_agent_name
      && a.active) with
  | none => .error (.notFound ("Initiating agent " ++
      request.initiating_agent_name ++ " not found or inactive"))
  | some _ =>
    .ok (((candidateList request db).insertionSort scoreGe).take 10)

/-- Request model `SessionInitiationRequest` of `negotiation.py`. -/
structure SessionInitiationRequest (C : Type) where
  target_agent_name : String
  task : String
  context : C
  initiating_agent_name : String
deriving DecidableEq

/-- Response model `SessionInitiationResponse` of `negotiation.py`. -/
structure SessionInitiationResponse where
  session_id : String
  session_token : String
  status : String
  target_agent : String
deriving DecidableEq

/-- Handler `initiate_a2a_session` of `negotiation.py` (lines 107-179): look
up both agents among the active ones, 404 for a missing or inactive
initiating agent, then for a missing or inactive target agent (each message
naming the agent); 400 when no supported task of the target matches the
requested task; otherwise create a session with status `ACTIVE` and both
timestamps set to `now`.  `newId` stands for the freshly generated
`uuid.uuid4()` in its normalized hexadecimal form, so the token
`"pb_session_" ++ newId` matches the token format built in the source from
the hexadecimal digits of the generated UUID. -/
def initiate_a2a_session {C : Type} (newId : String) (now : Nat)
    (request : SessionInitiationRequest C) (agents : List Agent)
    (db : List (A2ASession C)) :
    Except ApiError (SessionInitiationResponse × List (A2ASession C)) :=
  let initiating := agents.find? (fun a =>
    a.agent_name == request.initiating_agent_name && a.active)
  let target := agents.find? (fun a =>
    a.agent_name == request.target_agent_name && a.active)
  match initiating with
  | none => .error (.notFound ("Initiating agent " ++
      request.initiating_agent_name ++ " not found or inactive"))
  | some _ =>
    match target with
    | none => .error (.notFound ("Target agent " ++
        request.target_agent_name ++ " not found or inactive"))
    | some t =>
      if taskMatches request.task t.a2a.supported_tasks then
        let token := "pb_session_" ++ newId
        let s : A2ASession C :=
          { session_id := newId
            initiating_agent := request.initiating_agent_name
            target_agent := request.target_agent_name
            task := request.task
            session_token := token
            status := .active
            context := request.context
            created_at := now
            updated_at := now }
        .ok ({ session_id := newId
               session_token := token
               status := "active"
               target_agent := request.target_agent_name }, db ++ [s])
      else
        .error (.badRequest ("Target agent does not support task " ++
          request.task))

deriving instance DecidableEq for Except

/-- Two session rows that agree on every field except possibly the
`session_token` (the relation used to state that the token never flows into a
post-creation read). -/
def sameExceptToken {C : Type} (s t : A2ASession C) : Prop :=
  s.session_id = t.session_id ∧
  s.initiating_agent = t.initiating_agent ∧
  s.target_agent = t.target_agent ∧
  s.task = t.task ∧
  s.status = t.status ∧
  s.context = t.context ∧
  s.created_at = t.created_at ∧
  s.updated_at = t.updated_at

/-- A fixed well-formed session id string (canonical hyphenated form). -/
def zeroUuidStr : String := "00000000-0000-0000-0000-000000000000"

/-- The normalized form of `zeroUuidStr`. -/
def zeroUuidHex : String := "00000000000000000000000000000000"

/-- A concrete session row in the terminal status `COMPLETED`. -/
def sessionCompleted : A2ASession Unit :=
  { session_id := zeroUuidHex
    initiating_agent := "agent-a.example.com"
    target_agent := "agent-b.example.com"
    task := "translate"
    session_token := "pb_session_" ++ zeroUuidHex
    status := .completed
    context := ()
    created_at := 0
    updated_at := 0 }

/-- A concrete session row in the terminal status `FAILED`. -/
def sessionFailed : A2ASession Unit :=
  { sessionCompleted with status := .failed, updated_at := 1 }

/-- A concrete active session row. -/
def sessionActive : A2ASession Unit :=
  { sessionCompleted with status := .active }

/-- A concrete active session row with a `Nat` context. -/
def sessionActiveNat : A2ASession Nat :=
  { session_id := zeroUuidHex
    initiating_agent := "a.example.com"
    target_agent := "b.example.com"
    task := "translate"
    session_token := "tok"
    status := .active
    context := 7
    created_at := 3
    updated_at := 3 }

/-- A concrete active directory agent acting as the caller. -/
def agentCaller : Agent :=
  { agent_name := "caller.example.com"
    active := true
    a2a := { supported_tasks := ["summarize"], negotiation := false,
             token_budget := 100 } }

/-- A concrete active directory agent that supports translation tasks. -/
def agentAlpha : Agent :=
  { agent_name := "alpha.example.com"
    active := true
    a2a := { supported_tasks := ["Translate-EN", "summarize"],
             negotiation := true, token_budget := 500 } }

/-- A concrete negotiation request from the caller for `translate`. -/
def reqTranslate : TaskNegotiationRequest :=
  { initiating_agent_name := "caller.example.com"
    requested_task := "translate"
    preferred_capabilities := { negotiation := true, token_budget := some 100 } }

/-- A concrete two-agent directory. -/
def agentsDb : List Agent := [agentCaller, agentAlpha]

/-!
Theorems.  Shared helper lemmas first, then one theorem per claim (with the
closed witness or counterexample theorems the claim requires).
-/

theorem find_updateFirst {α : Type} (p : α → Bool) (f : α → α)
    (h : ∀ x, p x = true → p (f x) = true) :
    ∀ l : List α, (updateFirst p f l).find? p = (l.find? p).map f := by
  intro l
  induction l with
  | nil => rfl
  | cons x xs ih =>
    by_cases hx : p x = true
    · simp [updateFirst, hx, List.find?_cons_of_pos, h x hx]
    · simp only [updateFirst, hx, if_false, Bool.false_eq_true]
      rw [List.find?_cons_of_neg _ (by simp [hx]),
        List.find?_cons_of_neg _ (by simp [hx]), ih]

theorem findSession_updateFirst {C : Type} (u : String)
    (f : A2ASession C → A2ASession C)
    (h : ∀ x, x.session_id = u → (f x).session_id = u)
    (db : List (A2ASession C)) :
    findSession (updateFirst (fun t => t.session_id == u) f db) u
      = (findSession db u).map f := by
  unfold findSession
  exact find_updateFirst _ f (by simpa using h) db

/-- C1 counterexample: a session in the terminal status `COMPLETED` is
updated to `active` with success — `update_session` performs no
terminal-status check, so the claimed invariant fails on the code. -/
theorem C1_counterexample :
    update_session 5 zeroUuidStr
        ({ status := "active", context := none } : SessionUpdateRequest Unit)
        [sessionCompleted]
      = .ok ({ session_id := zeroUuidHex, status := "active", updated_at := 5 },
             [{ sessionCompleted with status := .active, updated_at := 5 }]) ∧
    sessionCompleted.status = .completed := by
  constructor
  · rfl
  · rfl

/-- C1 (amended): for every stored session in a terminal status
(`COMPLETED`, `FAILED`, or `TERMINATED`), `update_session` with a requested
status in `valid_statuses` succeeds and transitions the session to that
status — the terminal-state invariant is a design expectation the code does
not enforce (spec Scenario D). -/
theorem C1_terminal_update_succeeds {C : Type} (now : Nat) (idStr u : String)
    (req : SessionUpdateRequest C) (db : List (A2ASession C))
    (s : A2ASession C) (st : SessionStatus)
    (hparse : parseUUID idStr = some u)
    (hfind : findSession db u = some s)
    (_hterm : s.status = .completed ∨ s.status = .failed ∨
      s.status = .terminated)
    (hst : SessionStatus.ofString? req.status = some st)
    (hvalid : valid_statuses.contains req.status = true) :
    ∃ resp db2, update_session now idStr req db = .ok (resp, db2) ∧
      resp.status = st.value ∧
      ∃ s2, findSession db2 u = some s2 ∧ s2.status = st ∧
        s2.updated_at = now := by
  have hkey : update_session now idStr req db
      = .ok ({ session_id := s.session_id, status := st.value,
               updated_at := now },
             updateFirst (fun t => t.session_id == u)
               (fun _ =>
                 { s with
                   status := st
                   updated_at := now
                   context := (match req.context with
                     | some c => c
                     | none => s.context) }) db) := by
    simp only [update_session, hparse, hfind, hvalid, hst, if_true]
  have hsid : s.session_id = u := by
    have hmem := List.find?_some hfind
    simpa using hmem
  refine ⟨_, _, hkey, rfl, ?_⟩
  rw [findSession_updateFirst u]
  · rw [hfind]
    exact ⟨_, rfl, rfl, rfl⟩
  · exact fun x _ => hsid

/-- C1 witness: Scenario D concretely — a `FAILED` session updated to
`completed` succeeds and ends up `completed`. -/
theorem C1_witness :
    ∃ resp db2,
      update_session 6 zeroUuidStr
          ({ status := "completed", context := none } :
            SessionUpdateRequest Unit) [sessionFailed]
        = .ok (resp, db2) ∧
      resp.status = SessionStatus.completed.value ∧
      ∃ s2, findSession db2 zeroUuidHex = some s2 ∧
        s2.status = .completed ∧ s2.updated_at = 6 :=
  C1_terminal_update_succeeds 6 zeroUuidStr zeroUuidHex _ _ sessionFailed
    .completed (by decide) (by decide) (Or.inr (Or.inl (by decide)))
    (by decide) (by decide)

/-- C6 counterexample: with a well-formed id, no stored session, and the
invalid requested status `"terminated"`, `update_session` fails `NotFound`,
not `InvalidRequest` — the existence check precedes status validation. -/
theorem C6_counterexample :
    update_session (C := Unit) 0 zeroUuidStr
        { status := "terminated", context := none } []
      = .error (.notFound ("Session " ++ zeroUuidStr ++ " not found")) ∧
    valid_statuses.contains "terminated" = false := by
  exact ⟨by decide, by decide⟩

/-- C6 (amended): `update_session` fails `InvalidRequest` when the id is
malformed; fails `NotFound` when the id is well-formed but no session has
that id (this check precedes status validation); fails `InvalidRequest` when
the session exists and the requested status is not one of `active`,
`completed`, `failed`; and otherwise sets the status, replaces the context
wholesale exactly when one is provided, leaves every other field unchanged,
and sets `updated_at` to the current time. -/
theorem C6_update_session_spec {C : Type} (now : Nat) (idStr : String)
    (req : SessionUpdateRequest C) (db : List (A2ASession C)) :
    (parseUUID idStr = none →
      update_session now idStr req db
        = .error (.badRequest "Invalid session ID format")) ∧
    (∀ u, parseUUID idStr = some u → findSession db u = none →
      update_session now idStr req db
        = .error (.notFound ("Session " ++ idStr ++ " not found"))) ∧
    (∀ u s, parseUUID idStr = some u → findSession db u = some s →
      valid_statuses.contains req.status = false →
      update_session now idStr req db
        = .error (.badRequest
            "Invalid status. Must be one of: active, completed, failed")) ∧
    (∀ u s st, parseUUID idStr = some u → findSession db u = some s →
      SessionStatus.ofString? req.status = some st →
      valid_statuses.contains req.status = true →
      ∃ resp db2, update_session now idStr req db = .ok (resp, db2) ∧
        resp.status = st.value ∧ resp.updated_at = now ∧
        ∃ s2, findSession db2 u = some s2 ∧
          s2.status = st ∧
          s2.updated_at = now ∧
          s2.context = (match req.context with
            | some c => c
            | none => s.context) ∧
          s2.session_id = s.session_id ∧
          s2.initiating_agent = s.initiating_agent ∧
          s2.target_agent = s.target_agent ∧
          s2.task = s.task ∧
          s2.created_at = s.created_at) := by
  refine ⟨?_, ?_, ?_, ?_⟩
  · intro hp
    simp only [update_session, hp]
  · intro u hp hf
    simp only [update_session, hp, hf]
  · intro u s hp hf hv
    simp only [update_session, hp, hf, hv, Bool.false_eq_true, if_false]
  · intro u s st hp hf hst hv
    have hsid : s.session_id = u := by
      have hmem := List.find?_some hf
      simpa using hmem
    have hkey : update_session now idStr req db
        = .ok ({ session_id := s.session_id, status := st.value,
                 updated_at := now },
               updateFirst (fun t => t.session_id == u)
                 (fun _ =>
                   { s with
                     status := st
                     updated_at := now
                     context := (match req.context with
                       | some c => c
                       | none => s.context) }) db) := by
      simp only [update_session, hp, hf, hv, hst, if_true]
    refine ⟨_, _, hkey, rfl, rfl, ?_⟩
    rw [findSession_updateFirst u]
    · rw [hf]
      exact ⟨_, rfl, rfl, rfl, rfl, rfl, rfl, rfl, rfl, rfl⟩
    · exact fun x _ => hsid

/-- C6 witness: a concrete successful update providing a replacement
context. -/
theorem C6_witness :
    ∃ resp db2,
      update_session 9 zeroUuidStr
          ({ status := "failed", context := some 42 } :
            SessionUpdateRequest Nat)
          [sessionActiveNat]
        = .ok (resp, db2) ∧
      resp.status = SessionStatus.failed.value ∧ resp.updated_at = 9 ∧
      ∃ s2, findSession db2 zeroUuidHex = some s2 ∧
        s2.status = .failed ∧
        s2.updated_at = 9 ∧
        s2.context = (match (some 42 : Option Nat) with
          | some c => c
          | none => sessionActiveNat.context) ∧
        s2.session_id = sessionActiveNat.session_id ∧
        s2.initiating_agent = sessionActiveNat.initiating_agent ∧
        s2.target_agent = sessionActiveNat.target_agent ∧
        s2.task = sessionActiveNat.task ∧
        s2.created_at = sessionActiveNat.created_at :=
  (C6_update_session_spec 9 zeroUuidStr
      ({ status := "failed", context := some 42 } : SessionUpdateRequest Nat)
      [sessionActiveNat]).2.2.2
    zeroUuidHex sessionActiveNat .failed
    (by decide) (by decide) (by decide) (by decide)

theorem terminate_found {C : Type} (now : Nat) (idStr u : String)
    (db : List (A2ASession C)) (s : A2ASession C)
    (hp : parseUUID idStr = some u) (hf : findSession db u = some s) :
    terminate_session now idStr db
      = .ok ({ message := "Session " ++ idStr ++ " terminated",
               status := "failed" },
             updateFirst (fun t => t.session_id == u)
               (fun x => { x with status := .failed, updated_at := now })
               db) := by
  simp only [terminate_session, hp, hf]

/-- C7: `terminate_session` on an existing session always succeeds, forces
the status to `FAILED` (never `TERMINATED`) and refreshes `updated_at`; a
second call on the same id succeeds again and leaves the status `FAILED`;
and a `NotFound` failure happens only when the (well-formed) id matches no
stored session. -/
theorem C7_terminate_spec {C : Type} (now now2 : Nat) (idStr : String)
    (db : List (A2ASession C)) :
    (∀ u s, parseUUID idStr = some u → findSession db u = some s →
      ∃ resp db2, terminate_session now idStr db = .ok (resp, db2) ∧
        resp.status = "failed" ∧
        (∃ s2, findSession db2 u = some s2 ∧ s2.status = .failed ∧
          s2.updated_at = now) ∧
        ∃ resp2 db3, terminate_session now2 idStr db2 = .ok (resp2, db3) ∧
          resp2.status = "failed" ∧
          ∃ s3, findSession db3 u = some s3 ∧ s3.status = .failed ∧
            s3.updated_at = now2) ∧
    (∀ d, terminate_session now idStr db = .error (.notFound d) →
      ∃ u, parseUUID idStr = some u ∧ findSession db u = none) := by
  constructor
  · intro u s hp hf
    have hstep : ∀ (m : Nat) (db' : List (A2ASession C)) (s' : A2ASession C),
        findSession db' u = some s' →
        findSession (updateFirst (fun t => t.session_id == u)
            (fun x => { x with status := .failed, updated_at := m }) db') u
          = some { s' with status := .failed, updated_at := m } := by
      intro m db' s' hf'
      rw [findSession_updateFirst u]
      · rw [hf']
        rfl
      · exact fun x hx => hx
    refine ⟨_, _, terminate_found now idStr u db s hp hf, rfl, ?_, ?_⟩
    · exact ⟨_, hstep now db s hf, rfl, rfl⟩
    · refine ⟨_, _, terminate_found now2 idStr u _ _ hp (hstep now db s hf),
        rfl, ?_⟩
      exact ⟨_, hstep now2 _ _ (hstep now db s hf), rfl, rfl⟩
  · intro d h
    cases hp : parseUUID idStr with
    | none => simp [terminate_session, hp] at h
    | some u =>
      cases hf : findSession db u with
      | none => exact ⟨u, rfl, hf⟩
      | some s => simp [terminate_session, hp, hf] at h

/-- C7 witness: terminating a concrete active session twice succeeds both
times and leaves it `FAILED` both times. -/
theorem C7_witness :
    ∃ resp db2, terminate_session 4 zeroUuidStr [sessionActive]
        = .ok (resp, db2) ∧
      resp.status = "failed" ∧
      (∃ s2, findSession db2 zeroUuidHex = some s2 ∧ s2.status = .failed ∧
        s2.updated_at = 4) ∧
      ∃ resp2 db3, terminate_session 8 zeroUuidStr db2 = .ok (resp2, db3) ∧
        resp2.status = "failed" ∧
        ∃ s3, findSession db3 zeroUuidHex = some s3 ∧ s3.status = .failed ∧
          s3.updated_at = 8 :=
  (C7_terminate_spec 4 8 zeroUuidStr [sessionActive]).1 zeroUuidHex
    sessionActive (by decide) (by decide)

theorem mem_applyAgentFilters {C : Type} (ia ta : Option String)
    (db : List (A2ASession C)) (s : A2ASession C)
    (h : s ∈ applyAgentFilters ia ta db) :
    s ∈ db ∧ (isTruthy ia = true → s.initiating_agent = ia.getD "") ∧
      (isTruthy ta = true → s.target_agent = ta.getD "") := by
  by_cases hia : isTruthy ia = true <;> by_cases hta : isTruthy ta = true <;>
    simp [applyAgentFilters, hia, hta, List.mem_filter] at h <;>
    simp [hia, hta] <;> tauto

theorem pageOf_sorted {C : Type} (limit offset : Nat)
    (q : List (A2ASession C)) :
    List.Sorted (fun x y : SessionListItem => y.created_at ≤ x.created_at)
      (pageOf limit offset q).sessions := by
  have h1 : List.Sorted createdDesc (q.insertionSort createdDesc) :=
    List.sorted_insertionSort createdDesc q
  have h2 : List.Sorted createdDesc
      (((q.insertionSort createdDesc).drop offset).take limit) :=
    List.Pairwise.sublist
      ((List.take_sublist _ _).trans (List.drop_sublist _ _)) h1
  unfold pageOf
  exact (List.pairwise_map).2 (h2.imp (fun hab => hab))

theorem pageOf_length_le {C : Type} (limit offset : Nat)
    (q : List (A2ASession C)) :
    (pageOf limit offset q).sessions.length ≤ limit := by
  simp [pageOf, List.length_take]

theorem mem_pageOf {C : Type} {limit offset : Nat} {q : List (A2ASession C)}
    {it : SessionListItem} (h : it ∈ (pageOf limit offset q).sessions) :
    ∃ s, s ∈ q ∧ it = toListItem s := by
  unfold pageOf at h
  obtain ⟨s, hs, rfl⟩ := List.mem_map.1 h
  refine ⟨s, ?_, rfl⟩
  have hmem : s ∈ q.insertionSort createdDesc :=
    ((List.take_sublist _ _).trans (List.drop_sublist _ _)).subset hs
  exact (List.perm_insertionSort createdDesc q).subset hmem

/-- C8 counterexample: `list_sessions` treats empty-string filter values as
absent, because the handlers test Python truthiness rather than presence.
With `status_filter = ""` (a value outside `{active, completed, failed}`)
the call succeeds instead of failing `InvalidRequest`, and with
`initiating_agent = ""` the equality filter is not applied: a session whose
initiating agent is non-empty is still returned. -/
theorem C8_counterexample :
    (list_sessions (C := Unit) none none (some "") 50 0 []
      = .ok { sessions := [], total := 0, offset := 0, limit := 50 }) ∧
    (["active", "completed", "failed"] : List String).contains "" = false ∧
    (list_sessions (some "") none none 50 0 [sessionActive]
      = .ok { sessions := [toListItem sessionActive], total := 1,
              offset := 0, limit := 50 }) ∧
    sessionActive.initiating_agent ≠ "" := by
  refine ⟨by decide, by decide, by decide, by decide⟩

/-- C8 (amended): truthy (provided and non-empty) `initiatingAgent`,
`targetAgent` and `status` filters are applied conjunctively as equality
filters, and empty-string filter values are treated exactly like absent ones
(in particular an empty status filter is not validated); a truthy status
filter outside `{active, completed, failed}` fails `InvalidRequest`; on
success the result is ordered by `createdAt` descending and contains at most
`limit` sessions starting at `offset` of the sorted filtered list. -/
theorem C8_list_spec {C : Type} (ia ta stf : Option String)
    (limit offset : Nat) (db : List (A2ASession C)) :
    (isTruthy stf = true →
      (["active", "completed", "failed"] : List String).contains
        (stf.getD "") = false →
      list_sessions ia ta stf limit offset db
        = .error (.badRequest
            "Invalid status filter. Must be one of: active, completed, failed")) ∧
    (list_sessions ia ta (some "") limit offset db
      = list_sessions ia ta none limit offset db) ∧
    (isTruthy stf = false →
      list_sessions ia ta stf limit offset db
        = .ok (pageOf limit offset (applyAgentFilters ia ta db))) ∧
    (∀ st, isTruthy stf = true →
      (["active", "completed", "failed"] : List String).contains
        (stf.getD "") = true →
      SessionStatus.ofString? (stf.getD "") = some st →
      list_sessions ia ta stf limit offset db
        = .ok (pageOf limit offset
            ((applyAgentFilters ia ta db).filter (fun s => s.status == st)))) ∧
    (∀ r, list_sessions ia ta stf limit offset db = .ok r →
      r.sessions.length ≤ limit ∧
      List.Sorted (fun x y : SessionListItem => y.created_at ≤ x.created_at)
        r.sessions ∧
      ∀ it, it ∈ r.sessions → ∃ s, s ∈ db ∧ it = toListItem s ∧
        (isTruthy ia = true → s.initiating_agent = ia.getD "") ∧
        (isTruthy ta = true → s.target_agent = ta.getD "") ∧
        (isTruthy stf = true → s.status.value = stf.getD "")) := by
  have hofv : ∀ (v : String) (st : SessionStatus),
      SessionStatus.ofString? v = some st → st.value = v := by
    intro v st h
    unfold SessionStatus.ofString? at h
    split at h
    all_goals first
      | exact Option.noConfusion h
      | (injection h with h2; subst h2; rfl)
  refine ⟨?_, ?_, ?_, ?_, ?_⟩
  · intro ht hc
    simp only [list_sessions, ht, hc, if_true, Bool.false_eq_true, if_false]
  · rfl
  · intro ht
    simp only [list_sessions, ht, Bool.false_eq_true, if_false]
  · intro st ht hc hst
    simp only [list_sessions, ht, hc, hst, if_true]
  · intro r hr
    have hcases : ∃ q : List (A2ASession C),
        r = pageOf limit offset q ∧
        ∀ s, s ∈ q → s ∈ applyAgentFilters ia ta db ∧
          (isTruthy stf = true → s.status.value = stf.getD "") := by
      by_cases ht : isTruthy stf = true
      · by_cases hc : (["active", "completed", "failed"] :
            List String).contains (stf.getD "") = true
        · cases hst : SessionStatus.ofString? (stf.getD "") with
          | none =>
            rw [list_sessions, if_pos ht, if_pos hc, hst] at hr
            exact (Except.noConfusion hr)
          | some st =>
            rw [list_sessions, if_pos ht, if_pos hc, hst] at hr
            injection hr with hr
            refine ⟨_, hr.symm, ?_⟩
            intro s hs
            have hm := List.mem_filter.1 hs
            refine ⟨hm.1, fun _ => ?_⟩
            have heq : s.status = st := by simpa using hm.2
            rw [heq]
            exact hofv _ _ hst
        · rw [list_sessions, if_pos ht, if_neg hc] at hr
          exact (Except.noConfusion hr)
      · rw [list_sessions, if_neg ht] at hr
        injection hr with hr
        exact ⟨_, hr.symm, fun s hs => ⟨hs, fun hx => absurd hx ht⟩⟩
    obtain ⟨q, rfl, hq⟩ := hcases
    refine ⟨pageOf_length_le limit offset q, pageOf_sorted limit offset q, ?_⟩
    intro it hit
    obtain ⟨s, hs, rfl⟩ := mem_pageOf hit
    obtain ⟨hdb, hia, hta⟩ := mem_applyAgentFilters ia ta db s (hq s hs).1
    exact ⟨s, hdb, rfl, hia, hta, (hq s hs).2⟩

/-- C8 witness: a non-empty invalid status filter fails with 400, and a valid
one selects the status-filtered page. -/
theorem C8_witness :
    (list_sessions (C := Unit) none none (some "terminated") 5 0 []
      = .error (.badRequest
          "Invalid status filter. Must be one of: active, completed, failed")) ∧
    (list_sessions (C := Unit) none none (some "active") 5 0 [sessionActive]
      = .ok (pageOf 5 0 ((applyAgentFilters none none [sessionActive]).filter
          (fun s => s.status == SessionStatus.active)))) :=
  ⟨(C8_list_spec none none (some "terminated") 5 0 []).1
      (by decide) (by decide),
   (C8_list_spec none none (some "active") 5 0 [sessionActive]).2.2.2.1
      .active (by decide) (by decide) (by decide)⟩

theorem list_sessions_ok_pageOf {C : Type} {ia ta stf : Option String}
    {limit offset : Nat} {db : List (A2ASession C)} {r : SessionListResponse}
    (hr : list_sessions ia ta stf limit offset db = .ok r) :
    ∃ q : List (A2ASession C), r = pageOf limit offset q := by
  by_cases ht : isTruthy stf = true
  · by_cases hc : (["active", "completed", "failed"] : List String).contains
        (stf.getD "") = true
    · cases hst : SessionStatus.ofString? (stf.getD "") with
      | none =>
        rw [list_sessions, if_pos ht, if_pos hc, hst] at hr
        exact (Except.noConfusion hr)
      | some st =>
        rw [list_sessions, if_pos ht, if_pos hc, hst] at hr
        injection hr with hr
        exact ⟨_, hr.symm⟩
    · rw [list_sessions, if_pos ht, if_neg hc] at hr
      exact (Except.noConfusion hr)
  · rw [list_sessions, if_neg ht] at hr
    injection hr with hr
    exact ⟨_, hr.symm⟩

/-- C10: whenever `list_sessions` succeeds, the `total` field of the response
equals the number of sessions in the returned page (it is `len(results)`
computed after `offset` and `limit` are applied, not the number of sessions
matching the filters), and in particular `total` never exceeds `limit`. -/
theorem C10_total_counts_page {C : Type} (ia ta stf : Option String)
    (limit offset : Nat) (db : List (A2ASession C)) :
    ∀ r, list_sessions ia ta stf limit offset db = .ok r →
      r.total = r.sessions.length ∧ r.total ≤ limit := by
  intro r hr
  obtain ⟨q, rfl⟩ := list_sessions_ok_pageOf hr
  exact ⟨rfl, pageOf_length_le limit offset q⟩

/-- C10 witness: two stored sessions, `limit = 1` — the reported total is the
page length `1`, not the match count `2`. -/
theorem C10_witness :
    (1 : Nat) = [toListItem sessionActive].length ∧ (1 : Nat) ≤ 1 :=
  C10_total_counts_page (C := Unit) none none none 1 0
    [sessionActive, sessionCompleted]
    { sessions := [toListItem sessionActive], total := 1, offset := 0,
      limit := 1 }
    (by decide)

theorem findSession_sameExceptToken {C : Type} (u : String)
    {db db' : List (A2ASession C)}
    (h : List.Forall₂ sameExceptToken db db') :
    (findSession db u = none ∧ findSession db' u = none) ∨
    (∃ s s', findSession db u = some s ∧ findSession db' u = some s' ∧
      sameExceptToken s s') := by
  induction h with
  | nil => exact Or.inl ⟨rfl, rfl⟩
  | @cons a b l l' h1 h2 ih =>
    by_cases hm : (a.session_id == u) = true
    · refine Or.inr ⟨a, b, ?_, ?_, h1⟩
      · unfold findSession
        exact List.find?_cons_of_pos _ hm
      · unfold findSession
        refine List.find?_cons_of_pos _ ?_
        rw [← h1.1]
        exact hm
    · have hm' : (b.session_id == u) = false := by
        rw [← h1.1]
        exact Bool.not_eq_true _ ▸ (by simpa using hm)
      have e1 : findSession (a :: l) u = findSession l u := by
        unfold findSession
        exact List.find?_cons_of_neg _ (by simpa using hm)
      have e2 : findSession (b :: l') u = findSession l' u := by
        unfold findSession
        exact List.find?_cons_of_neg _ (by simp [hm'])
      rw [e1, e2]
      exact ih

/-- C9: the session-status read exposes only `sessionId`, `initiatingAgent`,
`targetAgent`, `task`, `status`, `context`, `createdAt` and `updatedAt`
(`SessionStatusResponse` has no token field), and the stored `sessionToken`
does not flow into it: reading two stores whose sessions differ only in their
tokens yields identical responses. -/
theorem C9_token_noninterference {C : Type} (idStr : String)
    (db db' : List (A2ASession C))
    (h : List.Forall₂ sameExceptToken db db') :
    get_session_status idStr db = get_session_status idStr db' := by
  cases hp : parseUUID idStr with
  | none => simp only [get_session_status, hp]
  | some u =>
    rcases findSession_sameExceptToken u h with ⟨h1, h2⟩ |
      ⟨s, s', h1, h2, hst⟩
    · simp only [get_session_status, hp, h1, h2]
    · obtain ⟨e1, e2, e3, e4, e5, e6, e7, e8⟩ := hst
      simp only [get_session_status, hp, h1, h2, e1, e2, e3, e4, e5, e6, e7,
        e8]

/-- C9 witness: changing only the stored token of a concrete session leaves
the result of the status read unchanged. -/
theorem C9_witness :
    get_session_status zeroUuidStr [sessionActive]
      = get_session_status zeroUuidStr
          [{ sessionActive with session_token := "some-other-token" }] :=
  C9_token_noninterference zeroUuidStr _ _
    (List.Forall₂.cons ⟨rfl, rfl, rfl, rfl, rfl, rfl, rfl, rfl⟩
      List.Forall₂.nil)

/-- C2: for every preference mapping and every record that passed the task
filter, the score is the base `0.8` plus `0.1` for the preferred-negotiation
bonus, plus `0.1` for the token-budget bonus, capped at `1.0`; a missing
preferred budget defaults to `0` and always satisfies the budget comparison
(record budgets are non-negative); hence the score is exactly one of `0.8`,
`0.9`, `1.0`. -/
theorem C2_match_score_partition (prefs : PreferredCapabilities)
    (a2a : A2AData) :
    (matchScore prefs a2a
      = min ((0.8 : ℚ)
          + (if prefs.negotiation && a2a.negotiation then (0.1 : ℚ) else 0)
          + (if (a2a.token_budget : Int) ≥ prefs.token_budget.getD 0 then
              (0.1 : ℚ) else 0)) 1.0) ∧
    (prefs.token_budget = none →
      prefs.token_budget.getD 0 ≤ (a2a.token_budget : Int)) ∧
    (matchScore prefs a2a = 0.8 ∨ matchScore prefs a2a = 0.9 ∨
      matchScore prefs a2a = 1.0) := by
  refine ⟨?_, ?_, ?_⟩
  · unfold matchScore
    by_cases h1 : (prefs.negotiation && a2a.negotiation) = true <;>
      by_cases h2 : (a2a.token_budget : Int) ≥ prefs.token_budget.getD 0 <;>
      simp only [h1, h2, if_true, if_false, Bool.false_eq_true, ge_iff_le,
        if_neg, if_pos] <;>
      norm_num
  · intro h
    rw [h]
    simp
  · unfold matchScore
    by_cases h1 : (prefs.negotiation && a2a.negotiation) = true <;>
      by_cases h2 : (a2a.token_budget : Int) ≥ prefs.token_budget.getD 0
    · right; right
      simp only [h1, h2, if_true, if_pos]
      rw [min_def]
      norm_num
    · right; left
      simp only [h1, h2, if_true, if_neg, if_pos]
      rw [min_def]
      norm_num
    · right; left
      simp only [h1, h2, Bool.false_eq_true, if_false, if_pos]
      rw [min_def]
      norm_num
    · left
      simp only [h1, h2, Bool.false_eq_true, if_false, if_neg]
      rw [min_def]
      norm_num

/-- C2 witness: spec Scenario B — preferred `{negotiation: true,
tokenBudget: 100}` against a negotiation-capable record with budget `500`
scores `1.0`; and a missing preferred budget satisfies the comparison. -/
theorem C2_witness :
    (matchScore { negotiation := true, token_budget := some 100 }
        { supported_tasks := ["translate"], negotiation := true,
          token_budget := 500 } = 0.8 ∨
     matchScore { negotiation := true, token_budget := some 100 }
        { supported_tasks := ["translate"], negotiation := true,
          token_budget := 500 } = 0.9 ∨
     matchScore { negotiation := true, token_budget := some 100 }
        { supported_tasks := ["translate"], negotiation := true,
          token_budget := 500 } = 1.0) ∧
    ((none : Option Int).getD 0 ≤
      ((500 : Nat) : Int)) :=
  ⟨(C2_match_score_partition
      { negotiation := true, token_budget := some 100 }
      { supported_tasks := ["translate"], negotiation := true,
        token_budget := 500 }).2.2,
   (C2_match_score_partition
      { negotiation := true, token_budget := none }
      { supported_tasks := ["translate"], negotiation := true,
        token_budget := 500 }).2.1 rfl⟩

theorem filter_score_orderedInsert (q : ℚ) (a : CandidateAgent)
    (l : List CandidateAgent) :
    (List.orderedInsert scoreGe a l).filter
        (fun c => decide (c.match_score = q))
      = if a.match_score = q
          then a :: l.filter (fun c => decide (c.match_score = q))
          else l.filter (fun c => decide (c.match_score = q)) := by
  induction l with
  | nil =>
    by_cases haq : a.match_score = q <;>
      simp [List.orderedInsert, haq]
  | cons b l ih =>
    rw [List.orderedInsert]
    by_cases hab : scoreGe a b
    · rw [if_pos hab]
      by_cases haq : a.match_score = q <;>
        simp [haq, List.filter_cons]
    · rw [if_neg hab]
      by_cases haq : a.match_score = q
      · have hbq : ¬(b.match_score = q) := by
          intro hb
          exact hab (le_of_eq (hb.trans haq.symm))
        simp [List.filter_cons, hbq, ih, haq]
      · simp [List.filter_cons, ih, haq]

theorem filter_score_insertionSort (q : ℚ) (l : List CandidateAgent) :
    (l.insertionSort scoreGe).filter (fun c => decide (c.match_score = q))
      = l.filter (fun c => decide (c.match_score = q)) := by
  induction l with
  | nil => rfl
  | cons a l ih =>
    rw [List.insertionSort, filter_score_orderedInsert]
    by_cases haq : a.match_score = q <;>
      simp [haq, ih, List.filter_cons]

/-- C3: a successful `negotiate_task` returns candidates sorted
non-increasing by match score, at most 10 of them, and the sort is stable:
for every score value, the returned candidates with that score form a
sublist (hence appear in the same relative order) of the unsorted candidate
list built in directory iteration order. -/
theorem C3_negotiate_sorted_stable (req : TaskNegotiationRequest)
    (db : List Agent) :
    ∀ cands, negotiate_task req db = .ok cands →
      List.Sorted scoreGe cands ∧ cands.length ≤ 10 ∧
      ∀ q : ℚ, List.Sublist
        (cands.filter (fun c => decide (c.match_score = q)))
        ((candidateList req db).filter
          (fun c => decide (c.match_score = q))) := by
  intro cands h
  cases hf : db.find? (fun a => a.agent_name == req.initiating_agent_name
      && a.active) with
  | none =>
    rw [negotiate_task] at h
    rw [hf] at h
    exact (Except.noConfusion h)
  | some a =>
    rw [negotiate_task] at h
    rw [hf] at h
    injection h with h
    subst h
    refine ⟨?_, ?_, ?_⟩
    · exact List.Pairwise.sublist (List.take_sublist _ _)
        (List.sorted_insertionSort scoreGe _)
    · simp [List.length_take]
    · intro q
      have h1 := List.Sublist.filter
        (fun c => decide (c.match_score = q))
        (List.take_sublist 10 ((candidateList req db).insertionSort scoreGe))
      rw [filter_score_insertionSort] at h1
      exact h1

/-- C3 witness: the concrete two-agent directory yields a result that is
sorted, within the length bound, and stable at score `1`. -/
theorem C3_witness :
    List.Sorted scoreGe
      (((candidateList reqTranslate agentsDb).insertionSort scoreGe).take
        10) ∧
    (((candidateList reqTranslate agentsDb).insertionSort scoreGe).take
        10).length ≤ 10 ∧
    List.Sublist
      ((((candidateList reqTranslate agentsDb).insertionSort scoreGe).take
        10).filter (fun c => decide (c.match_score = (1 : ℚ))))
      ((candidateList reqTranslate agentsDb).filter
        (fun c => decide (c.match_score = (1 : ℚ)))) := by
  have h := C3_negotiate_sorted_stable reqTranslate agentsDb
    (((candidateList reqTranslate agentsDb).insertionSort scoreGe).take 10)
    rfl
  exact ⟨h.1, h.2.1, h.2.2 1⟩

/-- C4: the candidate search keeps only records that are active, are not the
initiating (excluded) agent, and have at least one supported task containing
the requested task as a case-insensitive substring; and when the initiating
agent is found, `negotiate_task` succeeds even with an empty candidate list
(an empty result is a success, not an error). -/
theorem C4_find_candidates_sound (t e : String) (db : List Agent)
    (req : TaskNegotiationRequest) :
    (∀ a, a ∈ findCandidates t e db →
      a.active = true ∧ a.agent_name ≠ e ∧
      taskMatches t a.a2a.supported_tasks = true) ∧
    ((db.find? (fun a => a.agent_name == req.initiating_agent_name
        && a.active)).isSome = true →
      ∃ l, negotiate_task req db = .ok l) := by
  constructor
  · intro a ha
    unfold findCandidates at ha
    have h2 := List.mem_filter.1 ha
    have h1 := List.mem_filter.1 h2.1
    have h3 : a.active = true ∧ a.agent_name ≠ e := by
      have hb := h1.2
      simp only [Bool.and_eq_true, Bool.not_eq_true', beq_eq_false_iff_ne]
        at hb
      exact hb
    exact ⟨h3.1, h3.2, h2.2⟩
  · intro h
    cases hf : db.find? (fun a => a.agent_name == req.initiating_agent_name
        && a.active) with
    | none => rw [hf] at h; simp at h
    | some a =>
      exact ⟨((candidateList req db).insertionSort scoreGe).take 10,
        by rw [negotiate_task, hf]⟩

/-- C4 witness: on the concrete directory the filter facts hold for every
returned record, and the search succeeds. -/
theorem C4_witness :
    (∀ a, a ∈ findCandidates "translate" "caller.example.com" agentsDb →
      a.active = true ∧ a.agent_name ≠ "caller.example.com" ∧
      taskMatches "translate" a.a2a.supported_tasks = true) ∧
    ∃ l, negotiate_task reqTranslate agentsDb = .ok l :=
  ⟨(C4_find_candidates_sound "translate" "caller.example.com" agentsDb
      reqTranslate).1,
   (C4_find_candidates_sound "translate" "caller.example.com" agentsDb
      reqTranslate).2 (by decide)⟩

/-- C5: `initiate_a2a_session` fails `NotFound` naming the initiating agent
when it is absent or inactive; otherwise fails `NotFound` naming the target
agent when that one is absent or inactive; otherwise fails `InvalidRequest`
when no supported task of the target contains the requested task
case-insensitively; and otherwise creates and returns a session with status
`ACTIVE`. -/
theorem C5_initiate_spec {C : Type} (newId : String) (now : Nat)
    (req : SessionInitiationRequest C) (agents : List Agent)
    (db : List (A2ASession C)) :
    (agents.find? (fun a => a.agent_name == req.initiating_agent_name
        && a.active) = none →
      initiate_a2a_session newId now req agents db
        = .error (.notFound ("Initiating agent " ++
            req.initiating_agent_name ++ " not found or inactive"))) ∧
    (∀ a0, agents.find? (fun a => a.agent_name == req.initiating_agent_name
        && a.active) = some a0 →
      agents.find? (fun a => a.agent_name == req.target_agent_name
        && a.active) = none →
      initiate_a2a_session newId now req agents db
        = .error (.notFound ("Target agent " ++ req.target_agent_name ++
            " not found or inactive"))) ∧
    (∀ a0 tgt, agents.find? (fun a =>
        a.agent_name == req.initiating_agent_name && a.active) = some a0 →
      agents.find? (fun a => a.agent_name == req.target_agent_name
        && a.active) = some tgt →
      taskMatches req.task tgt.a2a.supported_tasks = false →
      initiate_a2a_session newId now req agents db
        = .error (.badRequest ("Target agent does not support task " ++
            req.task))) ∧
    (∀ a0 tgt, agents.find? (fun a =>
        a.agent_name == req.initiating_agent_name && a.active) = some a0 →
      agents.find? (fun a => a.agent_name == req.target_agent_name
        && a.active) = some tgt →
      taskMatches req.task tgt.a2a.supported_tasks = true →
      ∃ resp db2,
        initiate_a2a_session newId now req agents db = .ok (resp, db2) ∧
        resp.status = "active" ∧
        resp.session_id = newId ∧
        resp.session_token = "pb_session_" ++ newId ∧
        resp.target_agent = req.target_agent_name ∧
        ∃ s, db2 = db ++ [s] ∧ s.status = .active ∧ s.session_id = newId ∧
          s.initiating_agent = req.initiating_agent_name ∧
          s.target_agent = req.target_agent_name ∧ s.task = req.task ∧
          s.context = req.context ∧ s.created_at = now ∧
          s.updated_at = now) := by
  refine ⟨?_, ?_, ?_, ?_⟩
  · intro h1
    simp only [initiate_a2a_session, h1]
  · intro a0 h1 h2
    simp only [initiate_a2a_session, h1, h2]
  · intro a0 tgt h1 h2 h3
    simp only [initiate_a2a_session, h1, h2, h3, Bool.false_eq_true,
      if_false]
  · intro a0 tgt h1 h2 h3
    have hkey : initiate_a2a_session newId now req agents db
        = .ok ({ session_id := newId,
                 session_token := "pb_session_" ++ newId,
                 status := "active",
                 target_agent := req.target_agent_name },
               db ++ [{ session_id := newId,
                        initiating_agent := req.initiating_agent_name,
                        target_agent := req.target_agent_name,
                        task := req.task,
                        session_token := "pb_session_" ++ newId,
                        status := .active,
                        context := req.context,
                        created_at := now,
                        updated_at := now }]) := by
      simp only [initiate_a2a_session, h1, h2, h3, if_true]
    exact ⟨_, _, hkey, rfl, rfl, rfl, rfl, _, rfl, rfl, rfl, rfl, rfl, rfl,
      rfl, rfl, rfl⟩

/-- C5 witness: spec Scenario C direction and the success path — initiating
the supported task `translate` against the concrete directory creates an
`ACTIVE` session. -/
theorem C5_witness :
    ∃ resp db2,
      initiate_a2a_session zeroUuidHex 11
          ({ target_agent_name := "alpha.example.com", task := "translate",
             context := (), initiating_agent_name := "caller.example.com" } :
            SessionInitiationRequest Unit)
          agentsDb []
        = .ok (resp, db2) ∧
      resp.status = "active" ∧
      resp.session_id = zeroUuidHex ∧
      resp.session_token = "pb_session_" ++ zeroUuidHex ∧
      resp.target_agent = "alpha.example.com" ∧
      ∃ s, db2 = [] ++ [s] ∧ s.status = .active ∧
        s.session_id = zeroUuidHex ∧
        s.initiating_agent = "caller.example.com" ∧
        s.target_agent = "alpha.example.com" ∧ s.task = "translate" ∧
        s.context = () ∧ s.created_at = 11 ∧ s.updated_at = 11 :=
  (C5_initiate_spec zeroUuidHex 11
      ({ target_agent_name := "alpha.example.com", task := "translate",
         context := (), initiating_agent_name := "caller.example.com" } :
        SessionInitiationRequest Unit)
      agentsDb []).2.2.2 agentCaller agentAlpha
    (by decide) (by decide) (by decide)
